import Mathlib

/-!
Verification development for the `llm-search-quality-evaluation-tutorial`
init scripts (`elasticsearch_init.py`, `solr_init.py`, `vespa_init.py`).

The Python scripts are shallowly embedded: Python dicts become ordered
association lists with unique keys, floats become rationals, network I/O
becomes explicit call traces parameterised by response oracles, and
exceptions become `Except`.
-/

namespace SearchInit

/-- Model of the Python values that occur in the documents handled by the
init scripts: JSON scalars, float vectors (embeddings), and string lists
(the `authors` field).  The scripts only ever inspect the `id`, `vector`
and `authors` fields; all other field values are carried around opaquely,
so this flat universe is enough to express every operation they perform. -/
inductive PyVal where
  | none
  | bool (b : Bool)
  | int (n : Int)
  | num (q : ℚ)
  | str (s : String)
  | listF (v : List ℚ)
  | listS (v : List String)
  deriving DecidableEq, Repr

/-- A Python dict (document): insertion-ordered association list with unique
keys.  Uniqueness is maintained by the update operation `dset`. -/
abbrev Doc := List (String × PyVal)

/-- Model of `d.get(k)` / `d[k]` lookup on a dict: first binding wins. -/
def dget (d : Doc) (k : String) : Option PyVal :=
  (d.find? (fun kv => kv.1 = k)).map (fun kv => kv.2)

/-- Model of `d[k] = v` on a dict: replaces the value in place if the key is
present (keeping its position), otherwise appends the new binding. -/
def dset (d : Doc) (k : String) (v : PyVal) : Doc :=
  match d with
  | [] => [(k, v)]
  | (k0, v0) :: rest =>
      if k0 = k then (k0, v) :: rest else (k0, v0) :: dset rest k v

/-- Model of `d.pop(k)` (no default): returns the removed value and the
remaining dict, or `none` when the key is absent (Python raises `KeyError`). -/
def dpop (d : Doc) (k : String) : Option (PyVal × Doc) :=
  match d with
  | [] => Option.none
  | (k0, v0) :: rest =>
      if k0 = k then some (v0, rest)
      else (dpop rest k).map (fun pr => (pr.1, (k0, v0) :: pr.2))

/-- Model of `dict(d)` / `d.copy()`: a shallow copy.  In the pure embedding a
copy is the value itself; what matters is where the source applies it —
operations performed on a copy leave the caller's dict unchanged. -/
def dcopy (d : Doc) : Doc := d

/-- Model of Python `str(v)` for the values that can appear under an `id`
key.  `str(None) = "None"` is the case that matters for the merge claims;
container and float values never occur as ids in the dataset, and their
exact Python rendering is irrelevant to every operation modelled here, so
they are given simple deterministic renderings. -/
def pyStrV : PyVal → String
  | .none => "None"
  | .bool b => if b then "True" else "False"
  | .int n => toString n
  | .num q => toString q
  | .str s => s
  | .listF v => toString v
  | .listS v => toString v

/-- Model of `str(d.get(k))`: an absent key yields Python `None`, rendered
`"None"`. -/
def pyStr : Option PyVal → String
  | Option.none => "None"
  | some v => pyStrV v

/-- The embedding index built by `load_embeddings_to_dict`: a dict from
document id (string) to embedding vector (floats as rationals). -/
abbrev Emb := List (String × List ℚ)

/-- Model of `embeddings.get(doc_id)`. -/
def embGet (e : Emb) (k : String) : Option (List ℚ) :=
  (e.find? (fun kv => kv.1 = k)).map (fun kv => kv.2)

/-- Rounding of a rational to the nearest integer with ties to even, the
rounding mode of Python's built-in `round`. -/
def roundHalfEven (q : ℚ) : ℤ :=
  let f : ℤ := ⌊q⌋
  let frac : ℚ := q - (f : ℚ)
  if frac < 1/2 then f
  else if 1/2 < frac then f + 1
  else if Even f then f else f + 1

/-- Model of Python `round(float(x), digits)` on the rational model of
floats: rounding to `digits` decimal places, ties to even. -/
def pyRound (q : ℚ) (digits : Nat) : ℚ :=
  (roundHalfEven (q * (10 : ℚ) ^ digits) : ℚ) / (10 : ℚ) ^ digits

/-- `round_vector` (identical in all three init scripts): rounds each
component of the vector to `digits` (default 12) decimal places. -/
def round_vector (vector : List ℚ) (digits : Nat := 12) : List ℚ :=
  vector.map (fun x => pyRound x digits)

/-- The per-document body of `merge_docs_with_embeddings` (identical in the
Elasticsearch, Solr and Vespa scripts):
`doc = dict(d); doc_id = str(doc.get("id"));`
`vector = embeddings.get(doc_id); if vector is not None: doc["vector"] = round_vector(vector, 12)`. -/
def mergeStep (embeddings : Emb) (d : Doc) : Doc :=
  let doc := dcopy d
  let doc_id := pyStr (dget doc "id")
  match embGet embeddings doc_id with
  | some vector => dset doc "vector" (.listF (round_vector vector 12))
  | Option.none => doc

/-- `merge_docs_with_embeddings` (pure part; the optional `output_path`
write is ignored I/O): maps `mergeStep` over the documents in order. -/
def merge_docs_with_embeddings (docs : List Doc) (embeddings : Emb) : List Doc :=
  docs.map (mergeStep embeddings)

/-- Number of times the merge loop's `if not doc_id: log.debug("Document missing id")`
branch fires: `doc_id` is `str(doc.get("id"))`, a string, falsy iff empty. -/
def mergeMissingIdDiags (docs : List Doc) : Nat :=
  (docs.filter (fun d => pyStr (dget d "id") = "")).length

/-- `get_embedding_dimension` (`get_embedding_dimension_size` in the Solr
script): `None` on an empty index, else the length of the first vector. -/
def get_embedding_dimension (embeddings : Emb) : Option Nat :=
  match embeddings with
  | [] => Option.none
  | kv :: _ => some kv.2.length

/-! ## Batch partitioning (shared by the three `index_documents` variants) -/

/-- `INDEX_BATCH_SIZE = 1000`, a module-level constant in all three scripts. -/
def INDEX_BATCH_SIZE : Nat := 1000

/-- `num_batches = (total_docs + INDEX_BATCH_SIZE - 1) // INDEX_BATCH_SIZE`. -/
def numBatches (total_docs : Nat) : Nat :=
  (total_docs + INDEX_BATCH_SIZE - 1) / INDEX_BATCH_SIZE

/-- The slice `docs[start_index:end_index]` with
`start_index = i * INDEX_BATCH_SIZE` and
`end_index = min((i + 1) * INDEX_BATCH_SIZE, total_docs)`. -/
def sliceBatch (docs : List α) (i : Nat) : List α :=
  let start_index := i * INDEX_BATCH_SIZE
  let end_index := min ((i + 1) * INDEX_BATCH_SIZE) docs.length
  (docs.drop start_index).take (end_index - start_index)

/-! ## Solr `index_documents` -/

/-- A network call issued by the Solr `index_documents`: either the
force-reindex delete-all (POSTed to `/update?commit=true`) or a batch update
POSTed to `/update?commit={commit}`. -/
inductive SolrCall where
  | deleteAll
  | update (batch : List Doc) (commit : Bool)
  deriving DecidableEq

/-- The sequence of network calls performed by the Solr `index_documents`
(lines 177-224): early return on an empty document list; otherwise an
optional delete-all when `FORCE_REINDEX`, then one update per batch with
`commit=true` exactly when `i == num_batches - 1` (empty batches are
skipped by `if not batch: continue`). -/
def solr_index_documents (docs : List Doc) (forceReindex : Bool) : List SolrCall :=
  let total_docs := docs.length
  if total_docs = 0 then []
  else
    let num_batches := numBatches total_docs
    (if forceReindex then [SolrCall.deleteAll] else []) ++
      (List.range num_batches).filterMap (fun i =>
        let batch := sliceBatch docs i
        if batch.isEmpty then Option.none
        else some (SolrCall.update batch (i = num_batches - 1)))

/-! ## Elasticsearch `index_documents` -/

/-- One entry of an Elasticsearch `_bulk` payload: the `_id` routing key
taken from the document (when present) and the document body.  Per lines
218 and 227-231 the body is built from `doc.copy()`, and
`str(doc.pop("id"))` removes the id from that copy only — the caller's
dict is untouched. -/
def esBulkEntry (d : Doc) : Option String × Doc :=
  let doc := dcopy d
  match dpop doc "id" with
  | some pr => (some (pyStrV pr.1), pr.2)
  | Option.none => (Option.none, doc)

/-- One `_bulk` POST: the list of its payload entries. -/
abbrev EsCall := List (Option String × Doc)

/-- The Elasticsearch batch loop (lines 215-246): processes the batches in
order, skipping empty slices; a failed POST (the `net` oracle maps the
batch index to the transport outcome) raises
`Exception("Failed during batch {i+1} indexing.")`, aborting the loop. -/
def esLoop (docs : List Doc) (net : Nat → Bool) : List Nat → List EsCall × Except String Unit
  | [] => ([], Except.ok ())
  | i :: rest =>
      let batch := sliceBatch docs i
      if batch.isEmpty then esLoop docs net rest
      else
        let call := batch.map esBulkEntry
        if net i then
          let r := esLoop docs net rest
          (call :: r.1, r.2)
        else ([call], Except.error ("Failed during batch " ++ toString (i + 1) ++ " indexing."))

/-- The Elasticsearch `index_documents` (lines 202-250): returns the `_bulk`
calls performed and either the raised exception or the total number of
documents reported in the final success log.  An empty document list
returns immediately with no calls. -/
def es_index_documents (docs : List Doc) (net : Nat → Bool) :
    List EsCall × Except String Nat :=
  let total_docs := docs.length
  if total_docs = 0 then ([], Except.ok 0)
  else
    let r := esLoop docs net (List.range (numBatches total_docs))
    (r.1, r.2.map (fun _ => total_docs))

/-! ## Vespa `feed_vespa_documents` -/

/-- One per-document POST to `/document/v1/default/{schema}/docid/{doc_id}`:
the routing id, the `fields` payload, and the transport outcome. -/
structure VespaPost where
  docId : String
  fields : Doc
  ok : Bool
  deriving DecidableEq

/-- Per-document processing of the Vespa feed loop (lines 255-263):
`doc_id = str(doc.pop("id"))` mutates the caller's dict and raises
`KeyError` when the id is absent; a string-valued `authors` field is then
wrapped into a one-element list (also in place).  Returns the routing id
together with the caller-visible state of the document after processing. -/
def vespaProcessDoc (d : Doc) : Except String (String × Doc) :=
  match dpop d "id" with
  | Option.none => Except.error "KeyError: id"
  | some pr =>
      let doc_id := pyStrV pr.1
      let doc :=
        match dget pr.2 "authors" with
        | some (.str s) => dset pr.2 "authors" (.listS [s])
        | _ => pr.2
      Except.ok (doc_id, doc)

/-- Sequential feed of the documents of one batch, threading the global
submission counter used to index the `net` oracle.  Returns the mutated
documents, the posts performed, and the next counter value. -/
def vespaFeedBatch (net : Nat → Bool) :
    List Doc → Nat → Except String (List Doc × List VespaPost × Nat)
  | [], k => Except.ok ([], [], k)
  | d :: rest, k =>
      match vespaProcessDoc d with
      | Except.error e => Except.error e
      | Except.ok pr =>
          match vespaFeedBatch net rest (k + 1) with
          | Except.error e => Except.error e
          | Except.ok r => Except.ok (pr.2 :: r.1, ⟨pr.1, pr.2, net k⟩ :: r.2.1, r.2.2)

/-- The Vespa batch loop over the slices produced by the same
`start_index`/`end_index` arithmetic as the other two scripts (lines
242-249; empty slices are skipped by `if not batch: continue`). -/
def vespaBatchLoop (net : Nat → Bool) :
    List (List Doc) → Nat → Except String (List Doc × List VespaPost)
  | [], _ => Except.ok ([], [])
  | b :: rest, k =>
      match vespaFeedBatch net b k with
      | Except.error e => Except.error e
      | Except.ok r =>
          match vespaBatchLoop net rest r.2.2 with
          | Except.error e => Except.error e
          | Except.ok rr => Except.ok (r.1 ++ rr.1, r.2.1 ++ rr.2)

/-- `feed_vespa_documents` (lines 221-282): early return on an empty
document list; otherwise feeds every batch slice document by document.
Returns the caller-visible documents after the loop (mutated in place by
`doc.pop("id")`) and the posts performed; a `KeyError` from a missing id
escapes the function. -/
def feed_vespa_documents (docs : List Doc) (net : Nat → Bool) :
    Except String (List Doc × List VespaPost) :=
  let total_docs := docs.length
  if total_docs = 0 then Except.ok ([], [])
  else
    vespaBatchLoop net ((List.range (numBatches total_docs)).map (sliceBatch docs)) 0

/-! ## Corpus-count probes -/

/-- JSON values, as returned by `response.json()`. -/
inductive Json where
  | null
  | jbool (b : Bool)
  | jint (n : Int)
  | jnum (q : ℚ)
  | jstr (s : String)
  | jarr (elems : List Json)
  | jobj (fields : List (String × Json))

/-- Model of `body.get(key, default)`: defined on dict bodies; on any other
JSON value Python raises `AttributeError` (caught by the probes' broad
`except`). -/
def jGet (j : Json) (k : String) (dflt : Json) : Except String Json :=
  match j with
  | .jobj fields =>
      Except.ok (((fields.find? (fun kv => kv.1 = k)).map (fun kv => kv.2)).getD dflt)
  | _ => Except.error "AttributeError"

/-- Python truthiness of a JSON value, for `int(num_found or 0)`. -/
def jTruthy : Json → Bool
  | .null => false
  | .jbool b => b
  | .jint n => n ≠ 0
  | .jnum q => q ≠ 0
  | .jstr s => s ≠ ""
  | .jarr elems => ¬ elems.isEmpty
  | .jobj fields => ¬ fields.isEmpty

/-- Model of Python `int(x)` on a JSON value: ints pass through, bools map
to 0/1, floats truncate toward zero, numeric strings parse; anything else
raises (`TypeError`/`ValueError`). -/
def pyInt : Json → Except String Int
  | .jint n => Except.ok n
  | .jbool b => Except.ok (if b then 1 else 0)
  | .jnum q => Except.ok (if q < 0 then -⌊-q⌋ else ⌊q⌋)
  | .jstr s =>
      match s.toInt? with
      | some n => Except.ok n
      | Option.none => Except.error "ValueError"
  | _ => Except.error "TypeError"

/-- The outcome of an HTTP request whose transport succeeded: the status
code and the result of `response.json()` (which may itself fail to parse). -/
structure HttpResponse where
  status : Nat
  body : Except String Json

/-- The outcome of a `requests` call: a transport failure
(`requests.RequestException`) or a response. -/
abbrev HttpResult := Except String HttpResponse

/-- `response.raise_for_status()`: raises `HTTPError` for 4xx/5xx. -/
def raiseForStatus (resp : HttpResponse) : Except String Unit :=
  if 400 ≤ resp.status then Except.error "HTTPError" else Except.ok ()

/-- The body of the `try` block of the Elasticsearch `get_count`
(lines 83-87): GET, `raise_for_status`, parse, `int(body.get("count", 0))`. -/
def get_count_try (r : HttpResult) : Except String Int := do
  let resp ← r
  let _ ← raiseForStatus resp
  let body ← resp.body
  let c ← jGet body "count" (.jint 0)
  pyInt c

/-- The Elasticsearch `get_count` (lines 78-90): the broad
`except Exception` turns every failure of the `try` body into a returned 0;
nothing propagates to the caller. -/
def get_count (r : HttpResult) : Except String Int :=
  Except.ok (match get_count_try r with
             | Except.ok n => n
             | Except.error _ => 0)

/-- The body of the `try` block of the Solr `get_num_found` (lines 57-62):
GET, `raise_for_status`, parse,
`int(body.get("response", {}).get("numFound", 0) or 0)`. -/
def get_num_found_try (r : HttpResult) : Except String Int := do
  let resp ← r
  let _ ← raiseForStatus resp
  let body ← resp.body
  let responseField ← jGet body "response" (.jobj [])
  let num_found ← jGet responseField "numFound" (.jint 0)
  pyInt (if jTruthy num_found then num_found else .jint 0)

/-- The Solr `get_num_found` (lines 53-65): broad `except Exception`
returns 0 on any failure; nothing propagates. -/
def get_num_found (r : HttpResult) : Except String Int :=
  Except.ok (match get_num_found_try r with
             | Except.ok n => n
             | Except.error _ => 0)

/-- The body of the `try` block of the Vespa `get_vespa_doc_count`
(lines 132-137): GET, `raise_for_status`, parse,
`int(data.get("root", {}).get("fields", {}).get("totalCount", 0))`. -/
def get_vespa_doc_count_try (r : HttpResult) : Except String Int := do
  let resp ← r
  let _ ← raiseForStatus resp
  let data ← resp.body
  let root ← jGet data "root" (.jobj [])
  let fields ← jGet root "fields" (.jobj [])
  let totalCount ← jGet fields "totalCount" (.jint 0)
  pyInt totalCount

/-- The Vespa `get_vespa_doc_count` (lines 121-140): broad
`except Exception` returns 0 on any failure; nothing propagates. -/
def get_vespa_doc_count (r : HttpResult) : Except String Int :=
  Except.ok (match get_vespa_doc_count_try r with
             | Except.ok n => n
             | Except.error _ => 0)

/-! ## Readiness gates -/

/-- One readiness-poll attempt, recording the per-attempt network timeout
passed to `requests.get(..., timeout=...)`. -/
structure PollCall where
  reqTimeout : Nat
  deriving DecidableEq

/-- The `RuntimeError` raised when the readiness deadline is crossed: its
message carries the health URL and the elapsed time
(`"... did not become ready after {timeout} seconds: {health_url}"`). -/
structure ReadinessError where
  url : String
  elapsed : Nat
  deriving DecidableEq

/-- The poll loop `for attempt in range(timeout)` shared by the wait
functions: one health request per attempt (the `health` oracle maps the
attempt number to the success of that request), stopping at the first
success.  Returns the attempts performed and the successful attempt number,
if any. -/
def waitLoop (health : Nat → Bool) (reqTimeout : Nat) :
    Nat → Nat → List PollCall × Option Nat
  | 0, _ => ([], Option.none)
  | r + 1, a =>
      if health a then ([⟨reqTimeout⟩], some a)
      else
        let rest := waitLoop health reqTimeout r (a + 1)
        (⟨reqTimeout⟩ :: rest.1, rest.2)

/-- `wait_for_elasticsearch` (lines 38-54): at most `timeout` attempts, each
issued with `requests.get(health_url, timeout=timeout)` — the per-attempt
network timeout is the overall `timeout` parameter itself (line 46).  On
exhaustion it raises the readiness `RuntimeError` carrying the URL and
`timeout` seconds. -/
def wait_for_elasticsearch (health : Nat → Bool) (url : String) (timeout : Nat) :
    List PollCall × Except ReadinessError Nat :=
  let r := waitLoop health timeout timeout 0
  (r.1, match r.2 with
        | some a => Except.ok a
        | Option.none => Except.error ⟨url, timeout⟩)

/-- `int(os.getenv("DEFAULT_TIMEOUT", "600"))` with the default environment. -/
def DEFAULT_TIMEOUT : Nat := 600

/-- `wait_for_solr_core` (lines 36-50): at most `timeout` attempts, each
issued with `requests.get(ping_url, timeout=DEFAULT_TIMEOUT)` — the
per-attempt network timeout is the module-global `DEFAULT_TIMEOUT`
(line 42), not a short per-attempt value. -/
def wait_for_solr_core (health : Nat → Bool) (url : String) (timeout : Nat)
    (defaultTimeout : Nat) : List PollCall × Except ReadinessError Nat :=
  let r := waitLoop health defaultTimeout timeout 0
  (r.1, match r.2 with
        | some a => Except.ok a
        | Option.none => Except.error ⟨url, timeout⟩)

/-- `wait_for_vespa_app` (lines 102-118): at most `timeout` attempts, each
issued with `requests.get(health_url, timeout=5)` — a fixed short
per-attempt network timeout of 5 seconds (line 109). -/
def wait_for_vespa_app (health : Nat → Bool) (url : String) (timeout : Nat) :
    List PollCall × Except ReadinessError Nat :=
  let r := waitLoop health 5 timeout 0
  (r.1, match r.2 with
        | some a => Except.ok a
        | Option.none => Except.error ⟨url, timeout⟩)

/-! ## Orchestrators (`main`) -/

/-- The observable pipeline steps of a `main` run. -/
inductive Ev where
  | waitEngine
  | createIndex
  | getCount (n : Int)
  | loadDataset
  | loadEmbeddings
  | mergeDocs
  | createVectorField (dim : Nat)
  | indexDocuments (numDocs : Nat)
  | deleteTmpFile
  | skipIndexing
  deriving DecidableEq

/-- Extracts the count an always-successful probe reported. -/
def exceptValD (r : Except String Int) : Int :=
  match r with
  | Except.ok n => n
  | Except.error _ => 0

/-- The Elasticsearch `main` (lines 253-287) as an event trace plus exit
code.  A readiness failure logs and exits 1 before anything else runs;
otherwise `create_index`, then the count probe, then the
`count == 0 or FORCE_REINDEX` decision gates dataset load, embedding load,
merge, vector-field creation and indexing.  `docs`/`embeddings` stand for
the contents the two loaders would return. -/
def esMain (health : Nat → Bool) (url : String) (timeout : Nat)
    (countResp : HttpResult) (forceReindex : Bool)
    (docs : List Doc) (embeddings : Emb) : List Ev × Nat :=
  match (wait_for_elasticsearch health url timeout).2 with
  | Except.error _ => ([Ev.waitEngine], 1)
  | Except.ok _ =>
      let count := exceptValD (get_count countResp)
      let pre := [Ev.waitEngine, Ev.createIndex, Ev.getCount count]
      if count = 0 ∨ forceReindex then
        if embeddings.isEmpty then
          (pre ++ [Ev.loadDataset, Ev.loadEmbeddings,
                   Ev.indexDocuments docs.length, Ev.deleteTmpFile], 0)
        else
          match get_embedding_dimension embeddings with
          | Option.none => (pre ++ [Ev.loadDataset, Ev.loadEmbeddings], 1)
          | some dim =>
              (pre ++ [Ev.loadDataset, Ev.loadEmbeddings, Ev.mergeDocs,
                       Ev.createVectorField dim,
                       Ev.indexDocuments (merge_docs_with_embeddings docs embeddings).length], 0)
      else (pre ++ [Ev.skipIndexing], 0)

/-- The Solr `main` (lines 227-260): identical orchestration shape, without
the unconditional index creation, with `get_num_found` as the probe and
`num_found == 0 or FORCE_REINDEX` as the decision. -/
def solrMain (health : Nat → Bool) (url : String) (timeout defaultTimeout : Nat)
    (countResp : HttpResult) (forceReindex : Bool)
    (docs : List Doc) (embeddings : Emb) : List Ev × Nat :=
  match (wait_for_solr_core health url timeout defaultTimeout).2 with
  | Except.error _ => ([Ev.waitEngine], 1)
  | Except.ok _ =>
      let num_found := exceptValD (get_num_found countResp)
      let pre := [Ev.waitEngine, Ev.getCount num_found]
      if num_found = 0 ∨ forceReindex then
        if embeddings.isEmpty then
          (pre ++ [Ev.loadDataset, Ev.loadEmbeddings,
                   Ev.indexDocuments docs.length, Ev.deleteTmpFile], 0)
        else
          match get_embedding_dimension embeddings with
          | Option.none => (pre ++ [Ev.loadDataset, Ev.loadEmbeddings], 1)
          | some dim =>
              (pre ++ [Ev.loadDataset, Ev.loadEmbeddings, Ev.mergeDocs,
                       Ev.createVectorField dim,
                       Ev.indexDocuments (merge_docs_with_embeddings docs embeddings).length], 0)
      else (pre ++ [Ev.skipIndexing], 0)

/-! ## Helper lemmas on the dict model -/

theorem dget_dset_self (d : Doc) (k : String) (v : PyVal) :
    dget (dset d k v) k = some v := by
  induction d with
  | nil => simp [dget, dset]
  | cons kv rest ih =>
      by_cases h : kv.1 = k
      · simp [dset, h, dget]
      · simpa [dset, h, dget, List.find?_cons, ih] using ih

theorem dget_dset_ne (d : Doc) (k k' : String) (v : PyVal) (hne : k' ≠ k) :
    dget (dset d k v) k' = dget d k' := by
  induction d with
  | nil =>
      simp [dget, dset]
      exact fun h => hne h.symm
  | cons kv rest ih =>
      obtain ⟨k0, v0⟩ := kv
      by_cases h : k0 = k
      · subst h
        have hp : ¬ (k0 = k') := fun hh => hne hh.symm
        simp [dset, dget, List.find?_cons, hp]
      · simp only [dset, h, if_false]
        by_cases h' : k0 = k'
        · simp [dget, List.find?_cons, h']
        · simpa [dget, List.find?_cons, h'] using ih

theorem merge_length (docs : List Doc) (embeddings : Emb) :
    (merge_docs_with_embeddings docs embeddings).length = docs.length := by
  simp [merge_docs_with_embeddings]

theorem merge_getElem (docs : List Doc) (embeddings : Emb) (i : Nat)
    (h : i < docs.length) (h' : i < (merge_docs_with_embeddings docs embeddings).length) :
    (merge_docs_with_embeddings docs embeddings)[i] = mergeStep embeddings docs[i] := by
  simp [merge_docs_with_embeddings]

theorem mergeStep_of_match (embeddings : Emb) (d : Doc) (vec : List ℚ)
    (h : embGet embeddings (pyStr (dget d "id")) = some vec) :
    mergeStep embeddings d = dset d "vector" (.listF (round_vector vec 12)) := by
  simp [mergeStep, dcopy, h]

theorem mergeStep_of_nomatch (embeddings : Emb) (d : Doc)
    (h : embGet embeddings (pyStr (dget d "id")) = Option.none) :
    mergeStep embeddings d = d := by
  simp [mergeStep, dcopy, h]

theorem dget_mergeStep_ne (embeddings : Emb) (d : Doc) (k : String)
    (hk : k ≠ "vector") :
    dget (mergeStep embeddings d) k = dget d k := by
  rcases h : embGet embeddings (pyStr (dget d "id")) with _ | vec
  · rw [mergeStep_of_nomatch embeddings d h]
  · rw [mergeStep_of_match embeddings d vec h, dget_dset_ne _ _ _ _ hk]

/-! ## Claim C1 -/

/-- Whether the embedding index has `s` as a key. -/
def embHasKey (e : Emb) (s : String) : Bool := (embGet e s).isSome

/-- Claim C1 as stated, at one (input document, output document) pair:
the output carries a `vector` field iff the input document's id, as a
string, is a key of the index (a document with no id has no such key);
a matched vector equals the rounded index entry; an unmatched output
document has no `vector` field at all. -/
def claimC1HoldsAt (embeddings : Emb) (input output : Doc) : Bool :=
  ((dget output "vector").isSome
      == (match dget input "id" with
          | some v => embHasKey embeddings (pyStrV v)
          | Option.none => false)) &&
  (match dget input "id" with
   | some v =>
       (match embGet embeddings (pyStrV v) with
        | some vec => dget output "vector" == some (.listF (round_vector vec 12))
        | Option.none => true)
   | Option.none => true) &&
  (match dget input "id" with
   | some v => embHasKey embeddings (pyStrV v) || (dget output "vector").isNone
   | Option.none => (dget output "vector").isNone)

/-- Claim C1 as stated, for a document sequence and an embedding index:
the property holds at every positionally-corresponding input/output pair
of `merge_docs_with_embeddings`. -/
def claimC1Stated (docs : List Doc) (embeddings : Emb) : Prop :=
  ∀ pr ∈ docs.zip (merge_docs_with_embeddings docs embeddings),
    claimC1HoldsAt embeddings pr.1 pr.2 = true

/-- Claim C1 is false as stated: (a) a document with no `id` field is
matched under the key `"None"` (Python's `str(None)`), because the source
computes `str(doc.get("id"))` before the lookup, so an embedding index
containing the key `"None"` attaches a vector to an id-less document;
(b) an unmatched document that already carried a `vector` field keeps it,
since the merge only ever adds the field to the shallow copy. -/
theorem claimC1_counterexample :
    ¬ claimC1Stated [[]] [("None", [(1 : ℚ)])] ∧
    ¬ claimC1Stated [[("vector", PyVal.str "x")]] [] := by
  constructor
  · intro h
    have hx := h ([], mergeStep [("None", [(1 : ℚ)])] []) (by simp [merge_docs_with_embeddings])
    exact absurd hx (by decide)
  · intro h
    have hx := h ([("vector", PyVal.str "x")], mergeStep [] [("vector", PyVal.str "x")])
      (by simp [merge_docs_with_embeddings])
    exact absurd hx (by decide)

/-- C1 amended: the i-th output document of `merge_docs_with_embeddings`
carries a `vector` field iff `str(doc.get("id"))` — the string `"None"`
when the id is absent — is a key of the index, or the input document
already carried a `vector` field; on a key match the attached vector is
the index entry rounded componentwise to 12 decimal digits; on a miss the
output document's `vector` field is exactly the input's (in particular
absent when the input had none). -/
theorem merge_vector_field (docs : List Doc) (embeddings : Emb) (i : Nat)
    (h : i < docs.length) (h' : i < (merge_docs_with_embeddings docs embeddings).length) :
    ((dget (merge_docs_with_embeddings docs embeddings)[i] "vector").isSome
        ↔ (embHasKey embeddings (pyStr (dget docs[i] "id")) = true
           ∨ (dget docs[i] "vector").isSome)) ∧
    (∀ vec, embGet embeddings (pyStr (dget docs[i] "id")) = some vec →
        dget (merge_docs_with_embeddings docs embeddings)[i] "vector"
          = some (.listF (round_vector vec 12))) ∧
    (embGet embeddings (pyStr (dget docs[i] "id")) = Option.none →
        dget (merge_docs_with_embeddings docs embeddings)[i] "vector"
          = dget docs[i] "vector") := by
  rw [merge_getElem docs embeddings i h h']
  rcases hm : embGet embeddings (pyStr (dget docs[i] "id")) with _ | vec
  · rw [mergeStep_of_nomatch _ _ hm]
    refine ⟨?_, ?_, ?_⟩
    · simp [embHasKey, hm]
    · intro vec hvec; simp [hm] at hvec
    · intro _; rfl
  · rw [mergeStep_of_match _ _ vec hm]
    refine ⟨?_, ?_, ?_⟩
    · simp [embHasKey, hm, dget_dset_self]
    · intro vec' hvec'
      have hv : vec' = vec := (Option.some.inj hvec').symm
      subst hv
      exact dget_dset_self _ _ _
    · intro hnone; simp [hm] at hnone

/-- Witness for `merge_vector_field`: a matched document receives the
rounded vector, evaluated at a one-document, one-entry instance. -/
theorem merge_vector_field_witness :
    (0 : Nat) < ([[("id", PyVal.str "a")]] : List Doc).length ∧
    (0 : Nat) < (merge_docs_with_embeddings [[("id", PyVal.str "a")]] [("a", [(1 : ℚ)])]).length ∧
    (((dget (merge_docs_with_embeddings [[("id", PyVal.str "a")]] [("a", [(1 : ℚ)])])[0] "vector").isSome
        ↔ (embHasKey [("a", [(1 : ℚ)])] (pyStr (dget ([("id", PyVal.str "a")] : Doc) "id")) = true
           ∨ (dget ([("id", PyVal.str "a")] : Doc) "vector").isSome)) ∧
     (∀ vec, embGet [("a", [(1 : ℚ)])] (pyStr (dget ([("id", PyVal.str "a")] : Doc) "id")) = some vec →
        dget (merge_docs_with_embeddings [[("id", PyVal.str "a")]] [("a", [(1 : ℚ)])])[0] "vector"
          = some (.listF (round_vector vec 12))) ∧
     (embGet [("a", [(1 : ℚ)])] (pyStr (dget ([("id", PyVal.str "a")] : Doc) "id")) = Option.none →
        dget (merge_docs_with_embeddings [[("id", PyVal.str "a")]] [("a", [(1 : ℚ)])])[0] "vector"
          = dget ([("id", PyVal.str "a")] : Doc) "vector")) :=
  ⟨by simp, by simp [merge_docs_with_embeddings],
   merge_vector_field [[("id", PyVal.str "a")]] [("a", [(1 : ℚ)])] 0 (by simp)
     (by simp [merge_docs_with_embeddings])⟩

/-! ## Claim C2 -/

/-- C2: `merge_docs_with_embeddings` returns a sequence of the same length
as its input with documents in the same order (the i-th output document is
derived from the i-th input document), and each output document agrees
with its input document on every field other than `vector`.  The source
builds each output document from `dict(d)`, a fresh shallow copy, and never
writes into the input list or its dicts; in this pure embedding that
non-mutation is reflected by `merge_docs_with_embeddings` being a function
of its arguments with `dcopy` at the copy site. -/
theorem merge_preserves_documents (docs : List Doc) (embeddings : Emb) :
    (merge_docs_with_embeddings docs embeddings).length = docs.length ∧
    ∀ i, ∀ h : i < docs.length, ∀ h' : i < (merge_docs_with_embeddings docs embeddings).length,
      ∀ k, k ≠ "vector" →
        dget (merge_docs_with_embeddings docs embeddings)[i] k = dget docs[i] k := by
  refine ⟨merge_length docs embeddings, ?_⟩
  intro i h h' k hk
  rw [merge_getElem docs embeddings i h h']
  exact dget_mergeStep_ne embeddings docs[i] k hk

/-- Witness for `merge_preserves_documents`, at a two-field document and
the empty embedding index. -/
theorem merge_preserves_documents_witness :
    (merge_docs_with_embeddings [[("id", PyVal.str "a"), ("title", PyVal.str "t")]] []).length
        = ([[("id", PyVal.str "a"), ("title", PyVal.str "t")]] : List Doc).length ∧
    dget ((merge_docs_with_embeddings [[("id", PyVal.str "a"), ("title", PyVal.str "t")]] []).get
        ⟨0, by simp [merge_docs_with_embeddings]⟩) "title"
      = dget ([("id", PyVal.str "a"), ("title", PyVal.str "t")] : Doc) "title" :=
  ⟨(merge_preserves_documents [[("id", PyVal.str "a"), ("title", PyVal.str "t")]] []).1,
   (merge_preserves_documents [[("id", PyVal.str "a"), ("title", PyVal.str "t")]] []).2 0
     (by simp) (by simp [merge_docs_with_embeddings]) "title" (by decide)⟩

/-! ## Claim C8 -/

/-- C8 fails on the code: the merge computes `doc_id = str(doc.get("id"))`
before testing `if not doc_id`, and `str(None)` is the non-empty (hence
truthy) string `"None"`, so a document lacking an `id` field never
triggers the `"Document missing id"` diagnostic (which fires only for a
present, empty-string id).  At the failing input — one document with only
a `title` field and an empty index — the id is absent, zero diagnostics
are recorded, and the document is included in the output unmatched. -/
theorem missing_id_no_diagnostic :
    dget ([("title", PyVal.str "x")] : Doc) "id" = Option.none ∧
    mergeMissingIdDiags [[("title", PyVal.str "x")]] = 0 ∧
    merge_docs_with_embeddings [[("title", PyVal.str "x")]] []
      = [[("title", PyVal.str "x")]] := by
  decide

/-! ## Batching lemmas (claim C4) -/

theorem sliceBatch_eq_take_drop (docs : List α) (i : Nat) :
    sliceBatch docs i = (docs.drop (i * INDEX_BATCH_SIZE)).take INDEX_BATCH_SIZE := by
  unfold sliceBatch
  apply List.take_eq_take.2
  simp only [List.length_drop, INDEX_BATCH_SIZE]
  omega

theorem sliceBatch_length (docs : List α) (i : Nat) :
    (sliceBatch docs i).length
      = min INDEX_BATCH_SIZE (docs.length - i * INDEX_BATCH_SIZE) := by
  rw [sliceBatch_eq_take_drop, List.length_take, List.length_drop, Nat.min_comm]

theorem slices_flatten (docs : List α) (k : Nat) :
    ((List.range k).map (sliceBatch docs)).flatten
      = docs.take (k * INDEX_BATCH_SIZE) := by
  induction k with
  | zero => simp
  | succ k ih =>
      rw [List.range_succ, List.map_append, List.flatten_append, ih]
      simp only [List.map_cons, List.map_nil, List.flatten_cons, List.flatten_nil,
        List.append_nil]
      rw [sliceBatch_eq_take_drop, Nat.succ_mul, List.take_add]

theorem numBatches_mul_ge (n : Nat) : n ≤ numBatches n * INDEX_BATCH_SIZE := by
  unfold numBatches INDEX_BATCH_SIZE
  omega

theorem numBatches_pred_mul_lt (n : Nat) (hn : 0 < n) :
    (numBatches n - 1) * INDEX_BATCH_SIZE < n := by
  unfold numBatches INDEX_BATCH_SIZE
  omega

theorem slices_flatten_all (docs : List α) :
    ((List.range (numBatches docs.length)).map (sliceBatch docs)).flatten = docs := by
  rw [slices_flatten]
  exact List.take_of_length_le (numBatches_mul_ge docs.length)

theorem filterMap_eq_map_of_some {α β : Type} (f : α → Option β) (g : α → β)
    (l : List α) (h : ∀ x ∈ l, f x = some (g x)) : l.filterMap f = l.map g := by
  induction l with
  | nil => simp
  | cons a l ih =>
      rw [List.map_cons, List.filterMap_cons_some (h a (by simp))]
      exact congrArg _ (ih fun x hx => h x (List.mem_cons_of_mem a hx))

theorem sliceBatch_not_empty (docs : List α) (i : Nat)
    (h : i < numBatches docs.length) : (sliceBatch docs i).isEmpty = false := by
  have hlen : 0 < (sliceBatch docs i).length := by
    rw [sliceBatch_length]
    have h1 : i * INDEX_BATCH_SIZE < docs.length := by
      have h2 : i ≤ numBatches docs.length - 1 := by omega
      have h3 : i * INDEX_BATCH_SIZE ≤ (numBatches docs.length - 1) * INDEX_BATCH_SIZE :=
        Nat.mul_le_mul_right _ h2
      have h4 : 0 < docs.length := by
        by_contra h0
        have : docs.length = 0 := by omega
        rw [this] at h
        simp [numBatches, INDEX_BATCH_SIZE] at h
      exact lt_of_le_of_lt h3 (numBatches_pred_mul_lt docs.length h4)
    simp only [INDEX_BATCH_SIZE] at h1 ⊢
    omega
  cases hsl : sliceBatch docs i with
  | nil => rw [hsl] at hlen; simp at hlen
  | cons a l => simp

theorem solr_index_documents_eq_map (docs : List Doc) (hn : 0 < docs.length)
    (forceReindex : Bool) :
    solr_index_documents docs forceReindex
      = (if forceReindex then [SolrCall.deleteAll] else []) ++
          (List.range (numBatches docs.length)).map
            (fun i => SolrCall.update (sliceBatch docs i) (i = numBatches docs.length - 1)) := by
  simp only [solr_index_documents]
  rw [if_neg (by omega)]
  congr 1
  apply filterMap_eq_map_of_some
  intro i hi
  rw [List.mem_range] at hi
  simp only [sliceBatch_not_empty docs i hi, Bool.false_eq_true, if_false]

theorem last_batch_size_arith (n : Nat) (hn : 0 < n) :
    min 1000 (n - (((n + 1000 - 1) / 1000) - 1) * 1000)
      = if n % 1000 = 0 then 1000 else n % 1000 := by
  by_cases hmod : n % 1000 = 0 <;> simp only [hmod, if_true, if_false] <;> omega

/-! ## Claim C4 -/

/-- C4: for a non-empty document list with force-reindex unset, the Solr
`index_documents` issues exactly one update call per batch, the batches
being `ceil(N/1000)` contiguous order-preserving slices whose concatenation
is the input (so their sizes sum to N); every batch except the last has
size 1000 and the last has size `N mod 1000` (1000 when N is a multiple of
1000); `commit=true` accompanies exactly the final batch; in particular
N = 2500 gives batch sizes 1000, 1000, 500 with commits false, false, true. -/
theorem solr_batching (docs : List Doc) (hn : 0 < docs.length) :
    (solr_index_documents docs false
        = (List.range (numBatches docs.length)).map
            (fun i => SolrCall.update (sliceBatch docs i) (i = numBatches docs.length - 1))) ∧
    (numBatches docs.length = (docs.length + 1000 - 1) / 1000) ∧
    (((List.range (numBatches docs.length)).map (sliceBatch docs)).flatten = docs) ∧
    (∀ i, i + 1 < numBatches docs.length → (sliceBatch docs i).length = 1000) ∧
    ((sliceBatch docs (numBatches docs.length - 1)).length
        = if docs.length % 1000 = 0 then 1000 else docs.length % 1000) ∧
    (docs.length = 2500 →
      (List.range (numBatches docs.length)).map (fun i => (sliceBatch docs i).length)
          = [1000, 1000, 500] ∧
      (List.range (numBatches docs.length)).map
          (fun i => decide (i = numBatches docs.length - 1)) = [false, false, true]) := by
  refine ⟨?_, ?_, slices_flatten_all docs, ?_, ?_, ?_⟩
  · simpa using solr_index_documents_eq_map docs hn false
  · rfl
  · intro i hi
    rw [sliceBatch_length]
    have h2 : i + 1 ≤ numBatches docs.length - 1 := by omega
    have h3 : (i + 1) * INDEX_BATCH_SIZE ≤ (numBatches docs.length - 1) * INDEX_BATCH_SIZE :=
      Nat.mul_le_mul_right _ h2
    have h4 := numBatches_pred_mul_lt docs.length hn
    simp only [INDEX_BATCH_SIZE] at h3 h4 ⊢
    omega
  · rw [sliceBatch_length]
    have h4 := numBatches_pred_mul_lt docs.length hn
    have h5 := numBatches_mul_ge docs.length
    have h6 : numBatches docs.length = (docs.length + 1000 - 1) / 1000 := rfl
    simp only [INDEX_BATCH_SIZE] at h4 h5 ⊢
    rw [h6] at h4 h5 ⊢
    exact last_batch_size_arith docs.length hn
  · intro h25
    have hk : numBatches docs.length = 3 := by rw [h25]; rfl
    constructor
    · rw [hk]
      have : List.range 3 = [0, 1, 2] := rfl
      rw [this]
      simp only [List.map_cons, List.map_nil, sliceBatch_length, h25, INDEX_BATCH_SIZE]
      rfl
    · rw [hk]
      rfl

/-- Witness for `solr_batching`: 2500 empty documents produce batch sizes
1000, 1000, 500. -/
theorem solr_batching_witness :
    0 < (List.replicate 2500 ([] : Doc)).length ∧
    (List.range (numBatches (List.replicate 2500 ([] : Doc)).length)).map
        (fun i => (sliceBatch (List.replicate 2500 ([] : Doc)) i).length)
      = [1000, 1000, 500] :=
  ⟨by rw [List.length_replicate]; decide,
   ((solr_batching (List.replicate 2500 ([] : Doc))
       (by rw [List.length_replicate]; decide)).2.2.2.2.2 (List.length_replicate 2500 [])).1⟩

/-! ## Claim C5 -/

/-- C5: on an empty document list each of the three batch ingestors returns
immediately with no network calls whatever the network would answer — the
Elasticsearch `index_documents` performs no `_bulk` POST and reports
success with total 0, the Solr `index_documents` performs no update, no
delete (even under force-reindex, whose delete-all sits after the early
return) and no commit, and the Vespa `feed_vespa_documents` performs no
document POST. -/
theorem empty_docs_no_calls :
    (∀ net : Nat → Bool, es_index_documents [] net = ([], Except.ok 0)) ∧
    (∀ forceReindex : Bool, solr_index_documents [] forceReindex = []) ∧
    (∀ net : Nat → Bool, feed_vespa_documents [] net = Except.ok ([], [])) :=
  ⟨fun _ => rfl, fun _ => rfl, fun _ => rfl⟩

/-! ## Claim C6 -/

/-- A probe propagates an error to its caller on some input. -/
def probePropagates (p : HttpResult → Except String Int) : Prop :=
  ∃ r e, p r = Except.error e

/-- A failed request, as seen by the probes' `try` bodies: transport
failure, HTTP error status (`raise_for_status`), or a body that fails to
parse. -/
def isFailure (r : HttpResult) : Bool :=
  match r with
  | Except.error _ => true
  | Except.ok resp =>
      if 400 ≤ resp.status then true
      else
        match resp.body with
        | Except.error _ => true
        | Except.ok _ => false

/-- C6's exceptional clause is false: no engine variant's corpus-count
probe propagates any error — all three wrap their entire body in a broad
`except Exception` that logs and returns 0, so each probe is total and
always returns a value. -/
theorem claimC6_counterexample :
    ¬ (probePropagates get_count ∨ probePropagates get_num_found
        ∨ probePropagates get_vespa_doc_count) := by
  intro h
  rcases h with ⟨r, e, he⟩ | ⟨r, e, he⟩ | ⟨r, e, he⟩
  · rw [get_count] at he
    exact Except.noConfusion he
  · rw [get_num_found] at he
    exact Except.noConfusion he
  · rw [get_vespa_doc_count] at he
    exact Except.noConfusion he

/-- C6 amended: every engine variant's corpus-count probe — Elasticsearch
`get_count`, Solr `get_num_found`, Vespa `get_vespa_doc_count` — returns 0
on any transport failure, HTTP error status, or body-parse failure, rather
than propagating the error. -/
theorem count_probes_return_zero (r : HttpResult) (h : isFailure r = true) :
    get_count r = Except.ok 0 ∧ get_num_found r = Except.ok 0 ∧
    get_vespa_doc_count r = Except.ok 0 := by
  rcases r with resp | e
  · exact ⟨rfl, rfl, rfl⟩
  · rcases e with ⟨status, body⟩
    by_cases hs : 400 ≤ status
    · have hrs : raiseForStatus ⟨status, body⟩ = Except.error "HTTPError" := by
        simp [raiseForStatus, hs]
      simp [get_count, get_count_try, get_num_found, get_num_found_try,
        get_vespa_doc_count, get_vespa_doc_count_try, hrs, bind, Except.bind]
    · rcases body with berr | bval
      · have hrs : raiseForStatus ⟨status, Except.error berr⟩ = Except.ok () := by
          simp [raiseForStatus, hs]
        simp [get_count, get_count_try, get_num_found, get_num_found_try,
          get_vespa_doc_count, get_vespa_doc_count_try, hrs, bind, Except.bind]
      · simp [isFailure, hs] at h

/-- Witness for `count_probes_return_zero`: a transport failure makes all
three probes answer 0. -/
theorem count_probes_return_zero_witness :
    isFailure (Except.error "connection refused") = true ∧
    get_count (Except.error "connection refused") = Except.ok 0 ∧
    get_num_found (Except.error "connection refused") = Except.ok 0 ∧
    get_vespa_doc_count (Except.error "connection refused") = Except.ok 0 :=
  ⟨rfl, count_probes_return_zero (Except.error "connection refused") rfl⟩

/-! ## Readiness-gate lemmas (claims C7, C9) -/

theorem waitLoop_all_fail (health : Nat → Bool) (t : Nat) :
    ∀ r a, (∀ j, a ≤ j → j < a + r → health j = false) →
      waitLoop health t r a = (List.replicate r ⟨t⟩, Option.none) := by
  intro r
  induction r with
  | zero => intro a _; rfl
  | succ r ih =>
      intro a h
      have h0 : health a = false := h a le_rfl (by omega)
      rw [waitLoop, h0]
      simp only [Bool.false_eq_true, if_false]
      rw [ih (a + 1) (fun j hj1 hj2 => h j (by omega) (by omega))]
      simp [List.replicate_succ]

theorem waitLoop_timeouts (health : Nat → Bool) (t : Nat) :
    ∀ r a, ∀ c ∈ (waitLoop health t r a).1, c.reqTimeout = t := by
  intro r
  induction r with
  | zero => intro a c hc; simp [waitLoop] at hc
  | succ r ih =>
      intro a c hc
      rw [waitLoop] at hc
      by_cases h0 : health a
      · simp [h0] at hc
        rw [hc]
      · simp [h0] at hc
        rcases hc with hc | hc
        · rw [hc]
        · exact ih (a + 1) c hc

/-! ## Claim C7 -/

/-- C7: when the Elasticsearch health check never succeeds, the readiness
gate performs exactly `timeout` attempts (the loop is
`for attempt in range(timeout)`), then raises the readiness `RuntimeError`
carrying the health URL and the elapsed `timeout` seconds; `main` catches
it and exits 1 with a trace containing nothing beyond the failed wait — in
particular no dataset load, no index creation, no count probe, no
indexing. -/
theorem es_readiness_timeout (health : Nat → Bool) (url : String) (timeout : Nat)
    (countResp : HttpResult) (forceReindex : Bool) (docs : List Doc) (embeddings : Emb)
    (hfail : ∀ a, a < timeout → health a = false) :
    (wait_for_elasticsearch health url timeout).1.length = timeout ∧
    (wait_for_elasticsearch health url timeout).2 = Except.error ⟨url, timeout⟩ ∧
    (esMain health url timeout countResp forceReindex docs embeddings).2 = 1 ∧
    (esMain health url timeout countResp forceReindex docs embeddings).1 = [Ev.waitEngine] ∧
    Ev.loadDataset ∉ (esMain health url timeout countResp forceReindex docs embeddings).1 := by
  have hw : waitLoop health timeout timeout 0 = (List.replicate timeout ⟨timeout⟩, Option.none) :=
    waitLoop_all_fail health timeout timeout 0 (fun j _ hj => hfail j (by omega))
  have hwait : wait_for_elasticsearch health url timeout
      = (List.replicate timeout ⟨timeout⟩, Except.error ⟨url, timeout⟩) := by
    unfold wait_for_elasticsearch
    rw [hw]
  have hmain : esMain health url timeout countResp forceReindex docs embeddings
      = ([Ev.waitEngine], 1) := by
    unfold esMain
    rw [hwait]
  rw [hwait, hmain]
  refine ⟨by simp, rfl, rfl, rfl, by simp⟩

/-- Witness for `es_readiness_timeout`: a health check that always fails,
with a 2-second budget. -/
theorem es_readiness_timeout_witness :
    (∀ a, a < 2 → (fun _ => false) a = false) ∧
    (wait_for_elasticsearch (fun _ => false) "http://elasticsearch:9200/_cluster/health" 2).1.length = 2 ∧
    (wait_for_elasticsearch (fun _ => false) "http://elasticsearch:9200/_cluster/health" 2).2
      = Except.error ⟨"http://elasticsearch:9200/_cluster/health", 2⟩ ∧
    (esMain (fun _ => false) "http://elasticsearch:9200/_cluster/health" 2
        (Except.error "x") false [] []).2 = 1 :=
  ⟨fun _ _ => rfl,
   let h := es_readiness_timeout (fun _ => false) "http://elasticsearch:9200/_cluster/health" 2
     (Except.error "x") false [] [] (fun _ _ => rfl)
   ⟨h.1, h.2.1, h.2.2.1⟩⟩

/-! ## Claim C9 -/

/-- C9 is false as stated: at the Elasticsearch variant's actual call site
(`wait_for_elasticsearch(HOST_ENDPOINT, timeout=DEFAULT_TIMEOUT)` with the
default `DEFAULT_TIMEOUT = 600`), each poll attempt passes
`timeout=timeout` to `requests.get` — the per-attempt network timeout
equals the overall readiness deadline (600), and is not smaller than it. -/
theorem claimC9_counterexample :
    ¬ (∀ c ∈ (wait_for_elasticsearch (fun _ => false)
          "http://elasticsearch:9200/_cluster/health" DEFAULT_TIMEOUT).1,
        c.reqTimeout < DEFAULT_TIMEOUT) := by
  intro h
  have hw : waitLoop (fun _ => false) DEFAULT_TIMEOUT DEFAULT_TIMEOUT 0
      = (List.replicate DEFAULT_TIMEOUT ⟨DEFAULT_TIMEOUT⟩, Option.none) :=
    waitLoop_all_fail (fun _ => false) DEFAULT_TIMEOUT DEFAULT_TIMEOUT 0 (fun _ _ _ => rfl)
  have hmem : (⟨DEFAULT_TIMEOUT⟩ : PollCall)
      ∈ (wait_for_elasticsearch (fun _ => false)
          "http://elasticsearch:9200/_cluster/health" DEFAULT_TIMEOUT).1 := by
    unfold wait_for_elasticsearch
    rw [hw]
    exact List.mem_replicate.2 ⟨by decide, rfl⟩
  exact absurd (h ⟨DEFAULT_TIMEOUT⟩ hmem) (by decide)

/-- C9 amended: only the Vespa variant's readiness poll uses a short fixed
per-attempt network timeout (5 seconds, smaller than the 600-second default
deadline); the Elasticsearch variant passes its overall `timeout` argument
as each attempt's network timeout, and the Solr variant passes the global
`DEFAULT_TIMEOUT` — for those two the per-attempt timeout is not distinct
from the overall deadline at their call sites. -/
theorem poll_attempt_timeouts (health : Nat → Bool) (url : String)
    (timeout defaultTimeout : Nat) :
    (∀ c ∈ (wait_for_elasticsearch health url timeout).1, c.reqTimeout = timeout) ∧
    (∀ c ∈ (wait_for_solr_core health url timeout defaultTimeout).1,
        c.reqTimeout = defaultTimeout) ∧
    (∀ c ∈ (wait_for_vespa_app health url timeout).1, c.reqTimeout = 5) ∧
    5 < DEFAULT_TIMEOUT := by
  refine ⟨?_, ?_, ?_, by decide⟩
  · intro c hc
    exact waitLoop_timeouts health timeout timeout 0 c hc
  · intro c hc
    exact waitLoop_timeouts health defaultTimeout timeout 0 c hc
  · intro c hc
    exact waitLoop_timeouts health 5 timeout 0 c hc

/-- Witness for `poll_attempt_timeouts`, discharging the membership
hypotheses at a 1-attempt failing poll. -/
theorem poll_attempt_timeouts_witness :
    (⟨7⟩ : PollCall).reqTimeout = 7 ∧ (⟨9⟩ : PollCall).reqTimeout = 9 ∧
    (⟨5⟩ : PollCall).reqTimeout = 5 :=
  ⟨(poll_attempt_timeouts (fun _ => false) "u" 7 9).1 ⟨7⟩ (by decide),
   (poll_attempt_timeouts (fun _ => false) "u" 1 9).2.1 ⟨9⟩ (by decide),
   (poll_attempt_timeouts (fun _ => false) "u" 1 9).2.2.1 ⟨5⟩ (by decide)⟩

/-! ## Claim C3 -/

/-- C3: once the readiness gate has passed, both orchestrators load the
dataset and call the batch-submission operation iff the reported corpus
count is 0 or force-reindex is set; when the count is nonzero and the flag
unset, the trace contains no dataset load, no vector-field schema
provisioning and no indexing call.  (The Elasticsearch variant's
unconditional `create_index` — plain index creation, not the vector-field
SchemaProvisioner — still runs in the skip path, visible as
`Ev.createIndex` in the modelled trace.) -/
theorem ingestion_decision (health : Nat → Bool) (url : String)
    (timeout defaultTimeout : Nat) (countResp : HttpResult) (forceReindex : Bool)
    (docs : List Doc) (embeddings : Emb)
    (hes : ∃ a, (wait_for_elasticsearch health url timeout).2 = Except.ok a)
    (hsolr : ∃ b, (wait_for_solr_core health url timeout defaultTimeout).2 = Except.ok b) :
    (Ev.loadDataset ∈ (esMain health url timeout countResp forceReindex docs embeddings).1
        ↔ (exceptValD (get_count countResp) = 0 ∨ forceReindex = true)) ∧
    ((∃ n, Ev.indexDocuments n ∈ (esMain health url timeout countResp forceReindex docs embeddings).1)
        ↔ (exceptValD (get_count countResp) = 0 ∨ forceReindex = true)) ∧
    (¬ (exceptValD (get_count countResp) = 0 ∨ forceReindex = true) →
        ∀ d n, Ev.createVectorField d
            ∉ (esMain health url timeout countResp forceReindex docs embeddings).1 ∧
          Ev.indexDocuments n
            ∉ (esMain health url timeout countResp forceReindex docs embeddings).1) ∧
    (Ev.loadDataset ∈ (solrMain health url timeout defaultTimeout countResp forceReindex docs embeddings).1
        ↔ (exceptValD (get_num_found countResp) = 0 ∨ forceReindex = true)) ∧
    ((∃ n, Ev.indexDocuments n ∈ (solrMain health url timeout defaultTimeout countResp forceReindex docs embeddings).1)
        ↔ (exceptValD (get_num_found countResp) = 0 ∨ forceReindex = true)) ∧
    (¬ (exceptValD (get_num_found countResp) = 0 ∨ forceReindex = true) →
        ∀ d n, Ev.createVectorField d
            ∉ (solrMain health url timeout defaultTimeout countResp forceReindex docs embeddings).1 ∧
          Ev.indexDocuments n
            ∉ (solrMain health url timeout defaultTimeout countResp forceReindex docs embeddings).1) := by
  obtain ⟨a, ha⟩ := hes
  obtain ⟨b, hb⟩ := hsolr
  have hesmain : esMain health url timeout countResp forceReindex docs embeddings
      = (let count := exceptValD (get_count countResp)
         let pre := [Ev.waitEngine, Ev.createIndex, Ev.getCount count]
         if count = 0 ∨ forceReindex then
           if embeddings.isEmpty then
             (pre ++ [Ev.loadDataset, Ev.loadEmbeddings,
                      Ev.indexDocuments docs.length, Ev.deleteTmpFile], 0)
           else
             match get_embedding_dimension embeddings with
             | Option.none => (pre ++ [Ev.loadDataset, Ev.loadEmbeddings], 1)
             | some dim =>
                 (pre ++ [Ev.loadDataset, Ev.loadEmbeddings, Ev.mergeDocs,
                          Ev.createVectorField dim,
                          Ev.indexDocuments (merge_docs_with_embeddings docs embeddings).length], 0)
         else (pre ++ [Ev.skipIndexing], 0)) := by
    unfold esMain
    rw [ha]
  have hsolrmain : solrMain health url timeout defaultTimeout countResp forceReindex docs embeddings
      = (let count := exceptValD (get_num_found countResp)
         let pre := [Ev.waitEngine, Ev.getCount count]
         if count = 0 ∨ forceReindex then
           if embeddings.isEmpty then
             (pre ++ [Ev.loadDataset, Ev.loadEmbeddings,
                      Ev.indexDocuments docs.length, Ev.deleteTmpFile], 0)
           else
             match get_embedding_dimension embeddings with
             | Option.none => (pre ++ [Ev.loadDataset, Ev.loadEmbeddings], 1)
             | some dim =>
                 (pre ++ [Ev.loadDataset, Ev.loadEmbeddings, Ev.mergeDocs,
                          Ev.createVectorField dim,
                          Ev.indexDocuments (merge_docs_with_embeddings docs embeddings).length], 0)
         else (pre ++ [Ev.skipIndexing], 0)) := by
    unfold solrMain
    rw [hb]
  rw [hesmain, hsolrmain]
  constructor
  · by_cases hdec : exceptValD (get_count countResp) = 0 ∨ forceReindex = true
    · rcases embeddings with _ | ⟨kv, rest⟩
      · simp [hdec]
      · simp [hdec, get_embedding_dimension]
    · simp [hdec]
  constructor
  · by_cases hdec : exceptValD (get_count countResp) = 0 ∨ forceReindex = true
    · rcases embeddings with _ | ⟨kv, rest⟩
      · simp [hdec]
      · simp [hdec, get_embedding_dimension]
    · simp [hdec]
  constructor
  · intro hdec d n
    simp [hdec]
  constructor
  · by_cases hdec : exceptValD (get_num_found countResp) = 0 ∨ forceReindex = true
    · rcases embeddings with _ | ⟨kv, rest⟩
      · simp [hdec]
      · simp [hdec, get_embedding_dimension]
    · simp [hdec]
  constructor
  · by_cases hdec : exceptValD (get_num_found countResp) = 0 ∨ forceReindex = true
    · rcases embeddings with _ | ⟨kv, rest⟩
      · simp [hdec]
      · simp [hdec, get_embedding_dimension]
    · simp [hdec]
  · intro hdec d n
    simp [hdec]

/-- Witness for `ingestion_decision`: with an always-healthy engine, a count
response of 0 and no force flag, both orchestrators load the dataset. -/
theorem ingestion_decision_witness :
    Ev.loadDataset ∈ (esMain (fun _ => true) "u" 1 (Except.error "x") false [] []).1 ∧
    Ev.loadDataset ∈ (solrMain (fun _ => true) "u" 1 9 (Except.error "x") false [] []).1 :=
  ⟨((ingestion_decision (fun _ => true) "u" 1 9 (Except.error "x") false [] []
      ⟨0, rfl⟩ ⟨0, rfl⟩).1).2 (Or.inl rfl),
   ((ingestion_decision (fun _ => true) "u" 1 9 (Except.error "x") false [] []
      ⟨0, rfl⟩ ⟨0, rfl⟩).2.2.2.1).2 (Or.inl rfl)⟩

/-! ## Dict-pop lemmas (claim C10) -/

theorem dget_eq_none_iff (d : Doc) (k : String) :
    dget d k = Option.none ↔ k ∉ d.map Prod.fst := by
  induction d with
  | nil => simp [dget]
  | cons kv rest ih =>
      by_cases h : kv.1 = k
      · simp [dget, List.find?_cons, h]
      · simpa [dget, List.find?_cons, h, Ne.symm h] using ih

theorem dpop_eq_none_iff (d : Doc) (k : String) :
    dpop d k = Option.none ↔ dget d k = Option.none := by
  induction d with
  | nil => simp [dpop, dget]
  | cons kv rest ih =>
      by_cases h : kv.1 = k
      · simp [dpop, dget, List.find?_cons, h]
      · simpa [dpop, dget, List.find?_cons, h] using ih

theorem dget_dpop (d : Doc) (k : String) (v : PyVal) (d' : Doc)
    (hnd : (d.map Prod.fst).Nodup) (h : dpop d k = some (v, d')) :
    dget d' k = Option.none := by
  induction d generalizing v d' with
  | nil => simp [dpop] at h
  | cons kv rest ih =>
      rw [List.map_cons, List.nodup_cons] at hnd
      by_cases hk : kv.1 = k
      · simp only [dpop, hk, if_true] at h
        have hd' : d' = rest := (congrArg Prod.snd (Option.some.inj h)).symm
        rw [hd', dget_eq_none_iff, ← hk]
        exact hnd.1
      · simp only [dpop, hk, if_false] at h
        cases hp : dpop rest k with
        | none =>
            rw [hp] at h
            exact Option.noConfusion h
        | some pr =>
            rw [hp] at h
            have hd' : d' = kv :: pr.2 := (congrArg Prod.snd (Option.some.inj h)).symm
            rw [hd']
            have htail : dget pr.2 k = Option.none := by
              rcases pr with ⟨pv, pd⟩
              exact ih pv pd hnd.2 hp
            simpa [dget, List.find?_cons, hk] using htail

/-! ## Vespa feed lemmas (claim C10) -/

theorem vespaProcessDoc_error (d : Doc) (h : dget d "id" = Option.none) :
    vespaProcessDoc d = Except.error "KeyError: id" := by
  unfold vespaProcessDoc
  rw [(dpop_eq_none_iff d "id").2 h]

theorem vespaProcessDoc_ok (d : Doc) (h : dget d "id" ≠ Option.none) :
    ∃ did d2, vespaProcessDoc d = Except.ok (did, d2) ∧
      ((d.map Prod.fst).Nodup → dget d2 "id" = Option.none) := by
  cases hp : dpop d "id" with
  | none => exact absurd ((dpop_eq_none_iff d "id").1 hp) h
  | some pr =>
      have hbase : (d.map Prod.fst).Nodup → dget pr.2 "id" = Option.none := fun hnd =>
        dget_dpop d "id" pr.1 pr.2 hnd (by rw [hp])
      cases ha : dget pr.2 "authors" with
      | none =>
          refine ⟨pyStrV pr.1, pr.2, ?_, hbase⟩
          simp only [vespaProcessDoc, hp, ha]
      | some av =>
          cases av with
          | str s =>
              refine ⟨pyStrV pr.1, dset pr.2 "authors" (.listS [s]), ?_, ?_⟩
              · simp only [vespaProcessDoc, hp, ha]
              · intro hnd
                rw [dget_dset_ne pr.2 "authors" "id" (.listS [s]) (by decide)]
                exact hbase hnd
          | none =>
              refine ⟨pyStrV pr.1, pr.2, ?_, hbase⟩
              simp only [vespaProcessDoc, hp, ha]
          | bool b =>
              refine ⟨pyStrV pr.1, pr.2, ?_, hbase⟩
              simp only [vespaProcessDoc, hp, ha]
          | int n =>
              refine ⟨pyStrV pr.1, pr.2, ?_, hbase⟩
              simp only [vespaProcessDoc, hp, ha]
          | num q =>
              refine ⟨pyStrV pr.1, pr.2, ?_, hbase⟩
              simp only [vespaProcessDoc, hp, ha]
          | listF vv =>
              refine ⟨pyStrV pr.1, pr.2, ?_, hbase⟩
              simp only [vespaProcessDoc, hp, ha]
          | listS vv =>
              refine ⟨pyStrV pr.1, pr.2, ?_, hbase⟩
              simp only [vespaProcessDoc, hp, ha]

theorem vespaFeedBatch_ok (net : Nat → Bool) (b : List Doc)
    (hall : ∀ d ∈ b, dget d "id" ≠ Option.none) :
    ∀ k, ∃ ds ps, vespaFeedBatch net b k = Except.ok (ds, ps, k + b.length) ∧
      ds.length = b.length ∧
      ((∀ d ∈ b, (d.map Prod.fst).Nodup) → ∀ d' ∈ ds, dget d' "id" = Option.none) := by
  induction b with
  | nil => intro k; exact ⟨[], [], rfl, rfl, fun _ d' hd' => absurd hd' (by simp)⟩
  | cons d rest ih =>
      intro k
      obtain ⟨did, d2, hpd, hid⟩ := vespaProcessDoc_ok d (hall d (by simp))
      obtain ⟨ds, ps, hrec, hlen, hids⟩ :=
        ih (fun x hx => hall x (List.mem_cons_of_mem d hx)) (k + 1)
      refine ⟨d2 :: ds, ⟨did, d2, net k⟩ :: ps, ?_, by simp [hlen], ?_⟩
      · simp only [vespaFeedBatch, hpd, hrec, List.length_cons]
        have hk : k + 1 + rest.length = k + (rest.length + 1) := by omega
        rw [hk]
      · intro hnd d' hd'
        rcases List.mem_cons.1 hd' with hd' | hd'
        · rw [hd']
          exact hid (hnd d (by simp))
        · exact hids (fun x hx => hnd x (List.mem_cons_of_mem d hx)) d' hd'

theorem vespaFeedBatch_error (net : Nat → Bool) (b : List Doc)
    (hsome : ∃ d ∈ b, dget d "id" = Option.none) :
    ∀ k, ∃ e, vespaFeedBatch net b k = Except.error e := by
  induction b with
  | nil => simp at hsome
  | cons d rest ih =>
      intro k
      by_cases hd : dget d "id" = Option.none
      · refine ⟨"KeyError: id", ?_⟩
        simp only [vespaFeedBatch, vespaProcessDoc_error d hd]
      · have hrest : ∃ x ∈ rest, dget x "id" = Option.none := by
          rcases hsome with ⟨x, hx, hxid⟩
          rcases List.mem_cons.1 hx with hx | hx
          · exact absurd (hx ▸ hxid) hd
          · exact ⟨x, hx, hxid⟩
        obtain ⟨did, d2, hpd, _⟩ := vespaProcessDoc_ok d hd
        obtain ⟨e, he⟩ := ih hrest (k + 1)
        refine ⟨e, ?_⟩
        simp only [vespaFeedBatch, hpd, he]

theorem vespaBatchLoop_ok (net : Nat → Bool) (bs : List (List Doc))
    (hall : ∀ d ∈ bs.flatten, dget d "id" ≠ Option.none) :
    ∀ k, ∃ ds ps, vespaBatchLoop net bs k = Except.ok (ds, ps) ∧
      ds.length = bs.flatten.length ∧
      ((∀ d ∈ bs.flatten, (d.map Prod.fst).Nodup) →
        ∀ d' ∈ ds, dget d' "id" = Option.none) := by
  induction bs with
  | nil => intro k; exact ⟨[], [], rfl, rfl, fun _ d' hd' => absurd hd' (by simp)⟩
  | cons b rest ih =>
      intro k
      have hb : ∀ d ∈ b, dget d "id" ≠ Option.none := fun d hd =>
        hall d (by rw [List.flatten_cons]; exact List.mem_append_left _ hd)
      have hr : ∀ d ∈ rest.flatten, dget d "id" ≠ Option.none := fun d hd =>
        hall d (by rw [List.flatten_cons]; exact List.mem_append_right _ hd)
      obtain ⟨ds1, ps1, h1, hlen1, hids1⟩ := vespaFeedBatch_ok net b hb k
      obtain ⟨ds2, ps2, h2, hlen2, hids2⟩ := ih hr (k + b.length)
      refine ⟨ds1 ++ ds2, ps1 ++ ps2, ?_, by simp [hlen1, hlen2], ?_⟩
      · simp only [vespaBatchLoop, h1, h2]
      · intro hnd d' hd'
        have hndb : ∀ d ∈ b, (d.map Prod.fst).Nodup := fun d hd =>
          hnd d (by rw [List.flatten_cons]; exact List.mem_append_left _ hd)
        have hndr : ∀ d ∈ rest.flatten, (d.map Prod.fst).Nodup := fun d hd =>
          hnd d (by rw [List.flatten_cons]; exact List.mem_append_right _ hd)
        rcases List.mem_append.1 hd' with hd' | hd'
        · exact hids1 hndb d' hd'
        · exact hids2 hndr d' hd'

theorem vespaBatchLoop_error (net : Nat → Bool) (bs : List (List Doc))
    (hsome : ∃ d ∈ bs.flatten, dget d "id" = Option.none) :
    ∀ k, ∃ e, vespaBatchLoop net bs k = Except.error e := by
  induction bs with
  | nil => simp at hsome
  | cons b rest ih =>
      intro k
      by_cases hb : ∃ d ∈ b, dget d "id" = Option.none
      · obtain ⟨e, he⟩ := vespaFeedBatch_error net b hb k
        refine ⟨e, ?_⟩
        simp only [vespaBatchLoop, he]
      · have hball : ∀ d ∈ b, dget d "id" ≠ Option.none := by
          intro d hd hid
          exact hb ⟨d, hd, hid⟩
        have hrest : ∃ d ∈ rest.flatten, dget d "id" = Option.none := by
          rcases hsome with ⟨x, hx, hxid⟩
          rw [List.flatten_cons] at hx
          rcases List.mem_append.1 hx with hx | hx
          · exact absurd hxid (hball x hx)
          · exact ⟨x, hx, hxid⟩
        obtain ⟨ds1, ps1, h1, _, _⟩ := vespaFeedBatch_ok net b hball k
        obtain ⟨e, he⟩ := ih hrest (k + b.length)
        refine ⟨e, ?_⟩
        simp only [vespaBatchLoop, h1, he]

/-! ## Claim C10 -/

/-- C10: the Vespa `feed_vespa_documents` pops the `id` field from each
document it processes in place — on success the caller-visible documents
all lack their `id` field afterwards (given the dict invariant of unique
keys) — and a document lacking an `id` field makes the `KeyError` from
`doc.pop("id")` escape the function instead of being recorded as a
per-document failure.  By contrast the Elasticsearch variant pops the id
from `doc.copy()`, so its `_bulk` payload bodies carry no `id` field while
the caller's documents are untouched (the copy site is `dcopy` in
`esBulkEntry`). -/
theorem vespa_feed_mutation (docs : List Doc) (net : Nat → Bool) :
    ((∀ d ∈ docs, dget d "id" ≠ Option.none) →
      ∃ docsAfter posts,
        feed_vespa_documents docs net = Except.ok (docsAfter, posts) ∧
        docsAfter.length = docs.length ∧
        ((∀ d ∈ docs, (d.map Prod.fst).Nodup) →
          ∀ d' ∈ docsAfter, dget d' "id" = Option.none)) ∧
    ((∃ d ∈ docs, dget d "id" = Option.none) →
      ∃ e, feed_vespa_documents docs net = Except.error e) ∧
    (∀ d : Doc, (d.map Prod.fst).Nodup → dget (esBulkEntry d).2 "id" = Option.none) := by
  have hflat : ((List.range (numBatches docs.length)).map (sliceBatch docs)).flatten = docs :=
    slices_flatten_all docs
  refine ⟨?_, ?_, ?_⟩
  · intro hall
    rcases hd0 : docs with _ | ⟨d0, drest⟩
    · exact ⟨[], [], rfl, rfl, fun _ d' hd' => absurd hd' (by simp)⟩
    · rw [← hd0]
      have hne : docs.length ≠ 0 := by rw [hd0]; simp
      obtain ⟨ds, ps, hloop, hlen, hids⟩ :=
        vespaBatchLoop_ok net ((List.range (numBatches docs.length)).map (sliceBatch docs))
          (by rw [hflat]; exact hall) 0
      refine ⟨ds, ps, ?_, ?_, ?_⟩
      · unfold feed_vespa_documents
        rw [if_neg hne]
        exact hloop
      · rw [hlen, hflat]
      · intro hnd
        exact hids (by rw [hflat]; exact hnd)
  · intro hsome
    have hne : docs.length ≠ 0 := by
      rcases hsome with ⟨d, hd, _⟩
      rcases docs with _ | _
      · simp at hd
      · simp
    obtain ⟨e, he⟩ :=
      vespaBatchLoop_error net ((List.range (numBatches docs.length)).map (sliceBatch docs))
        (by rw [hflat]; exact hsome) 0
    refine ⟨e, ?_⟩
    unfold feed_vespa_documents
    rw [if_neg hne]
    exact he
  · intro d hnd
    cases hp : dpop (dcopy d) "id" with
    | none =>
        have : dget d "id" = Option.none := (dpop_eq_none_iff d "id").1 hp
        simp only [esBulkEntry, hp]
        exact this
    | some pr =>
        simp only [esBulkEntry, hp]
        exact dget_dpop d "id" pr.1 pr.2 hnd (by rw [← hp]; rfl)

/-- Witness for `vespa_feed_mutation`: a fed document loses its `id` in the
caller's state; a document without an `id` makes the feed fail; the
Elasticsearch bulk body for the same document carries no `id`. -/
theorem vespa_feed_mutation_witness :
    (∃ docsAfter posts,
        feed_vespa_documents [[("id", PyVal.str "a")]] (fun _ => true)
          = Except.ok (docsAfter, posts) ∧
        docsAfter.length = ([[("id", PyVal.str "a")]] : List Doc).length ∧
        ((∀ d ∈ ([[("id", PyVal.str "a")]] : List Doc), (d.map Prod.fst).Nodup) →
          ∀ d' ∈ docsAfter, dget d' "id" = Option.none)) ∧
    (∃ e, feed_vespa_documents [[("title", PyVal.str "t")]] (fun _ => true)
        = Except.error e) ∧
    dget (esBulkEntry [("id", PyVal.str "a")]).2 "id" = Option.none :=
  ⟨(vespa_feed_mutation [[("id", PyVal.str "a")]] (fun _ => true)).1 (by decide),
   (vespa_feed_mutation [[("title", PyVal.str "t")]] (fun _ => true)).2.1
     ⟨[("title", PyVal.str "t")], by decide, by decide⟩,
   (vespa_feed_mutation [] (fun _ => true)).2.2 [("id", PyVal.str "a")] (by decide)⟩

end SearchInit
